import Mathlib

/-!
Shallow embedding of the apartment-registry core of `src/bot.py`.

The SQLite store is modelled as a `DB` record holding the three mutable
tables as lists of rows kept in insertion (rowid) order:
`apartments` (occupancy links, UNIQUE on the pair), `admins` (operators)
and `approval_requests`.  Timestamp columns are informational only and
are omitted.  Each bot command that mutates the store becomes a pure
function `DB → ... → DB × Result`, where the `Result` type mirrors the
distinct reply branches of the handler.  `SELECT ... fetchone()` without
an `ORDER BY` returns the first row in rowid order, which is `List.find?`
on the list; `fetchall()` is `List.filter`; an unconditional `DELETE`
with a `WHERE` clause keeps the rows not matching the clause.
-/

namespace BotPushkin

/-- The status column of `approval_requests`; the source only ever writes
the strings "pending" (the column default), "approved" and "rejected". -/
inductive Status where
  | pending
  | approved
  | rejected
deriving DecidableEq, Repr

/-- A row of the `apartments` table (an occupancy link).  The
`registration_date` column is informational and omitted. -/
structure Link where
  apartment_number : Int
  user_id : Int
deriving DecidableEq, Repr

/-- A row of the `approval_requests` table.  The `request_date`
column is informational and omitted. -/
structure Request where
  id : Int
  apartment_number : Int
  requesting_user_id : Int
  approver_user_id : Int
  status : Status
deriving DecidableEq, Repr

/-- The mutable store: the three tables, in rowid order, plus the
AUTOINCREMENT counter for `approval_requests.id`.  The `admins` table is
its list of `user_id` keys (`added_by` and `added_date` are
informational). -/
structure DB where
  apartments : List Link
  admins : List Int
  approval_requests : List Request
  next_request_id : Int
deriving DecidableEq, Repr

/-- Range constants of `bot.py`. -/
def HOUSE1_START : Int := 1

/-- Range constants of `bot.py`. -/
def HOUSE1_END : Int := 252

/-- Range constants of `bot.py`. -/
def HOUSE2_START : Int := 253

/-- Range constants of `bot.py`. -/
def HOUSE2_END : Int := 403

/-- The secret confirmation token of `force_registration`. -/
def FORCE_REGISTRATION_CODE : String := "2512"

/-- `is_valid_apartment` of `bot.py`: membership in either inclusive range. -/
def is_valid_apartment (apartment_number : Int) : Bool :=
  decide (HOUSE1_START ≤ apartment_number ∧ apartment_number ≤ HOUSE1_END) ||
  decide (HOUSE2_START ≤ apartment_number ∧ apartment_number ≤ HOUSE2_END)

/-- `is_admin_user` of `bot.py`: a row with this `user_id` exists in `admins`. -/
def is_admin_user (db : DB) (user_id : Int) : Bool :=
  db.admins.contains user_id

/-- `clear_pending_requests_from_db` of `bot.py`:
`DELETE FROM approval_requests WHERE status = 'pending'`, returning the
number of deleted rows (`cursor.rowcount`). -/
def clear_pending_requests_from_db (db : DB) : DB × Nat :=
  let deleted := db.approval_requests.countP (fun r => decide (r.status = Status.pending))
  ({ db with approval_requests :=
       db.approval_requests.filter (fun r => !decide (r.status = Status.pending)) },
   deleted)

/-- Reply branches of `request_apartment_access` (`/setapartment`). -/
inductive SubmitResult where
  | invalid_apartment
  | request_created (approver_user_id : Int)
  | linked
deriving DecidableEq, Repr

/-- `request_apartment_access` of `bot.py`: validate the range; if the
unit already has residents, insert a new `approval_requests` row (status
defaults to pending) whose approver is the first resident row fetched;
otherwise insert the occupancy link directly. -/
def request_apartment_access (db : DB) (requesting_user_id apartment_number : Int) :
    DB × SubmitResult :=
  if !is_valid_apartment apartment_number then
    (db, .invalid_apartment)
  else
    let existing_residents :=
      db.apartments.filter (fun l => decide (l.apartment_number = apartment_number))
    match existing_residents with
    | [] =>
        ({ db with apartments :=
             db.apartments ++ [{ apartment_number := apartment_number
                                 user_id := requesting_user_id }] },
         .linked)
    | first :: _ =>
        let request : Request :=
          { id := db.next_request_id
            apartment_number := apartment_number
            requesting_user_id := requesting_user_id
            approver_user_id := first.user_id
            status := Status.pending }
        ({ db with approval_requests := db.approval_requests ++ [request]
                   next_request_id := db.next_request_id + 1 },
         .request_created first.user_id)

/-- The `SELECT ... WHERE requesting_user_id = ? AND approver_user_id = ?
AND status = 'pending'` + `fetchone()` shared by approve and reject. -/
def pending_request_for (db : DB) (requesting_user_id approver_user_id : Int) :
    Option Request :=
  db.approval_requests.find? (fun r =>
    decide (r.requesting_user_id = requesting_user_id ∧
            r.approver_user_id = approver_user_id ∧
            r.status = Status.pending))

/-- Reply branches of `approve_request` (`/approve`). -/
inductive ApproveResult where
  | not_found
  | already_registered (apartment_number : Int)
  | integrity_conflict
  | approved (apartment_number : Int)
deriving DecidableEq, Repr

/-- `approve_request` of `bot.py`: find the pending request for the pair;
fail if the requester already holds any link; insert the link (catching
the UNIQUE violation); then update every still-pending row of the pair
to approved. -/
def approve_request (db : DB) (approver_id requesting_user_id : Int) :
    DB × ApproveResult :=
  match pending_request_for db requesting_user_id approver_id with
  | none => (db, .not_found)
  | some request =>
      match db.apartments.find? (fun l => decide (l.user_id = requesting_user_id)) with
      | some existing_apartment => (db, .already_registered existing_apartment.apartment_number)
      | none =>
          if db.apartments.any (fun l =>
              decide (l.apartment_number = request.apartment_number ∧
                      l.user_id = requesting_user_id)) then
            (db, .integrity_conflict)
          else
            ({ db with
                apartments := db.apartments ++
                  [{ apartment_number := request.apartment_number
                     user_id := requesting_user_id }]
                approval_requests := db.approval_requests.map (fun r =>
                  if r.requesting_user_id = requesting_user_id ∧
                     r.approver_user_id = approver_id ∧
                     r.status = Status.pending
                  then { r with status := Status.approved } else r) },
             .approved request.apartment_number)

/-- Reply branches of `reject_request` (`/reject`). -/
inductive RejectResult where
  | not_found
  | rejected (apartment_number : Int)
deriving DecidableEq, Repr

/-- `reject_request` of `bot.py`: find the pending request for the pair;
if found, `UPDATE approval_requests SET status = 'rejected' WHERE
requesting_user_id = ? AND approver_user_id = ?` — note the source UPDATE
carries no `status = 'pending'` clause, so every row of the pair is
rewritten. -/
def reject_request (db : DB) (approver_id requesting_user_id : Int) :
    DB × RejectResult :=
  match pending_request_for db requesting_user_id approver_id with
  | none => (db, .not_found)
  | some request =>
      ({ db with approval_requests := db.approval_requests.map (fun r =>
           if r.requesting_user_id = requesting_user_id ∧
              r.approver_user_id = approver_id
           then { r with status := Status.rejected } else r) },
       .rejected request.apartment_number)

/-- Reply branches of `force_registration` (`/forceregistration`). -/
inductive ResetResult where
  | not_main_admin
  | wrong_code
  | cleared
deriving DecidableEq, Repr

/-- `force_registration` of `bot.py`: main admin only, with the secret
code as first argument; deletes all of `apartments` and all of
`approval_requests`, touching nothing else. -/
def force_registration (mainAdminId : Int) (db : DB) (user_id : Int)
    (args : List String) : DB × ResetResult :=
  if user_id ≠ mainAdminId then (db, .not_main_admin)
  else
    match args with
    | [] => (db, .wrong_code)
    | code :: _ =>
        if code ≠ FORCE_REGISTRATION_CODE then (db, .wrong_code)
        else ({ db with apartments := [], approval_requests := [] }, .cleared)

/-- Reply branches of `delete_apartment` (`/deleteapartment`). -/
inductive ReleaseResult where
  | no_apartment
  | removed (apartment_number : Int)
deriving DecidableEq, Repr

/-- `delete_apartment` of `bot.py`: fetch the first link of the caller
(for the report); if one exists, `DELETE FROM apartments WHERE user_id = ?`
removes every link of the caller. -/
def delete_apartment (db : DB) (user_id : Int) : DB × ReleaseResult :=
  match db.apartments.find? (fun l => decide (l.user_id = user_id)) with
  | none => (db, .no_apartment)
  | some link =>
      ({ db with apartments :=
           db.apartments.filter (fun l => !decide (l.user_id = user_id)) },
       .removed link.apartment_number)

/-- Reply branches of `admin_assign` (`/adminassign`). -/
inductive AssignResult where
  | not_admin
  | invalid_apartment
  | assigned (previous_residents previous_apartments : List Int)
deriving DecidableEq, Repr

/-- `admin_assign` of `bot.py`: admin only; validate the range; capture
the prior residents of the unit and prior units of the target; delete
every link of the unit, then every link of the target; insert the new
link; set every pending request for (unit, target) to approved with the
acting admin as approver. -/
def admin_assign (db : DB) (actor_id apartment_number target_user_id : Int) :
    DB × AssignResult :=
  if !is_admin_user db actor_id then (db, .not_admin)
  else if !is_valid_apartment apartment_number then (db, .invalid_apartment)
  else
    let previous_residents :=
      (db.apartments.filter (fun l => decide (l.apartment_number = apartment_number))).map
        (fun l => l.user_id)
    let previous_apartments :=
      (db.apartments.filter (fun l => decide (l.user_id = target_user_id))).map
        (fun l => l.apartment_number)
    let after_deletes :=
      (db.apartments.filter (fun l => !decide (l.apartment_number = apartment_number))).filter
        (fun l => !decide (l.user_id = target_user_id))
    let requests := db.approval_requests.map (fun r =>
      if r.apartment_number = apartment_number ∧
         r.requesting_user_id = target_user_id ∧
         r.status = Status.pending
      then { r with status := Status.approved, approver_user_id := actor_id } else r)
    ({ db with
        apartments := after_deletes ++ [{ apartment_number := apartment_number
                                          user_id := target_user_id }]
        approval_requests := requests },
     .assigned previous_residents previous_apartments)

/-- Reply branches of `admin_unlink` (`/adminunlink`). -/
inductive UnlinkResult where
  | not_admin
  | not_found
  | unlinked (removed_apartments : List Int)
deriving DecidableEq, Repr

/-- `admin_unlink` of `bot.py`: admin only; with a unit given, delete that
one (unit, target) pair; without one, delete every link of the target;
Not-Found when nothing matches. -/
def admin_unlink (db : DB) (actor_id target_user_id : Int)
    (apartment_number : Option Int) : DB × UnlinkResult :=
  if !is_admin_user db actor_id then (db, .not_admin)
  else
    let matching : List Link := match apartment_number with
      | some n => db.apartments.filter (fun l =>
          decide (l.user_id = target_user_id ∧ l.apartment_number = n))
      | none => db.apartments.filter (fun l => decide (l.user_id = target_user_id))
    if matching.isEmpty then (db, .not_found)
    else
      let apartments : List Link := match apartment_number with
        | some n => db.apartments.filter (fun l =>
            !decide (l.user_id = target_user_id ∧ l.apartment_number = n))
        | none => db.apartments.filter (fun l => !decide (l.user_id = target_user_id))
      ({ db with apartments := apartments },
       .unlinked (matching.map (fun l => l.apartment_number)))

/-- Reply branches of `admin_delete_apartment` (`/admindelete`). -/
inductive FreeApartmentResult where
  | not_admin
  | invalid_apartment
  | already_vacant
  | freed (removed_residents : List Int)
deriving DecidableEq, Repr

/-- `admin_delete_apartment` of `bot.py`: admin only; validate the range;
report already-vacant when no resident row exists, otherwise delete every
link of the unit. -/
def admin_delete_apartment (db : DB) (actor_id apartment_number : Int) :
    DB × FreeApartmentResult :=
  if !is_admin_user db actor_id then (db, .not_admin)
  else if !is_valid_apartment apartment_number then (db, .invalid_apartment)
  else
    let residents :=
      (db.apartments.filter (fun l => decide (l.apartment_number = apartment_number))).map
        (fun l => l.user_id)
    if residents.isEmpty then (db, .already_vacant)
    else
      ({ db with apartments :=
           db.apartments.filter (fun l => !decide (l.apartment_number = apartment_number)) },
       .freed residents)

/-- Reply branches of `add_admin` and `remove_admin`. -/
inductive AdminEditResult where
  | not_main_admin
  | cannot_remove_main
  | done
deriving DecidableEq, Repr

/-- `add_admin` of `bot.py`: main admin only;
`INSERT OR IGNORE INTO admins` (no change when the id is present). -/
def add_admin (mainAdminId : Int) (db : DB) (caller_id new_admin_id : Int) :
    DB × AdminEditResult :=
  if caller_id ≠ mainAdminId then (db, .not_main_admin)
  else if db.admins.contains new_admin_id then (db, .done)
  else ({ db with admins := db.admins ++ [new_admin_id] }, .done)

/-- `remove_admin` of `bot.py`: main admin only; refuses the main admin id
outright, and the DELETE additionally carries `user_id != MAIN_ADMIN_ID`. -/
def remove_admin (mainAdminId : Int) (db : DB) (caller_id admin_id : Int) :
    DB × AdminEditResult :=
  if caller_id ≠ mainAdminId then (db, .not_main_admin)
  else if admin_id = mainAdminId then (db, .cannot_remove_main)
  else
    ({ db with admins :=
         db.admins.filter (fun a => !decide (a = admin_id ∧ a ≠ mainAdminId)) },
     .done)

/-- One store-mutating bot command, for quantifying over operation
sequences. -/
inductive Op where
  | submit (requesting_user_id apartment_number : Int)
  | approve (approver_id requesting_user_id : Int)
  | reject (approver_id requesting_user_id : Int)
  | clearPending
  | reset (user_id : Int) (args : List String)
  | release (user_id : Int)
  | assign (actor_id apartment_number target_user_id : Int)
  | unlink (actor_id target_user_id : Int) (apartment_number : Option Int)
  | freeApartment (actor_id apartment_number : Int)
  | addAdm (caller_id new_admin_id : Int)
  | removeAdm (caller_id admin_id : Int)

/-- Interpretation of one command against the store (the resulting state,
dropping the reply). -/
def applyOp (mainAdminId : Int) (db : DB) : Op → DB
  | .submit r u => (request_apartment_access db r u).1
  | .approve a r => (approve_request db a r).1
  | .reject a r => (reject_request db a r).1
  | .clearPending => (clear_pending_requests_from_db db).1
  | .reset caller args => (force_registration mainAdminId db caller args).1
  | .release uid => (delete_apartment db uid).1
  | .assign actor u x => (admin_assign db actor u x).1
  | .unlink actor x u => (admin_unlink db actor x u).1
  | .freeApartment actor u => (admin_delete_apartment db actor u).1
  | .addAdm caller nid => (add_admin mainAdminId db caller nid).1
  | .removeAdm caller aid => (remove_admin mainAdminId db caller aid).1

/-- An empty store with one operator, used to instantiate theorems on a
concrete input. -/
def dbW0 : DB :=
  { apartments := [], admins := [1], approval_requests := [], next_request_id := 0 }

/-- A store with one occupied unit and one pending request, used to
instantiate theorems on a concrete input. -/
def dbW1 : DB :=
  { apartments := [{ apartment_number := 10, user_id := 5 }]
    admins := [1]
    approval_requests :=
      [{ id := 0, apartment_number := 10, requesting_user_id := 6,
         approver_user_id := 5, status := Status.pending }]
    next_request_id := 1 }

/-- The pending request row of `dbW1`. -/
def reqW1 : Request :=
  { id := 0, apartment_number := 10, requesting_user_id := 6,
    approver_user_id := 5, status := Status.pending }

/-- A store holding an already-approved request next to a pending request
for the same (requester, approver) pair — reachable because a requester
can submit again after an approval. -/
def dbC1 : DB :=
  { apartments := [], admins := [],
    approval_requests :=
      [{ id := 0, apartment_number := 10, requesting_user_id := 2,
         approver_user_id := 1, status := Status.approved },
       { id := 1, apartment_number := 10, requesting_user_id := 2,
         approver_user_id := 1, status := Status.pending }],
    next_request_id := 2 }

theorem countP_split (p : α → Bool) (l : List α) :
    l.countP p + l.countP (fun a => !p a) = l.length := by
  induction l with
  | nil => simp
  | cons a t ih => by_cases h : p a = true <;> simp [List.countP_cons, h] <;> omega

theorem filter_pos_of_double_neg_filter (p q : α → Bool) (l : List α) :
    (((l.filter (fun a => !p a)).filter q).filter p) = [] := by
  rw [List.filter_eq_nil_iff]
  intro a ha
  obtain ⟨ha1, _⟩ := List.mem_filter.mp ha
  obtain ⟨_, hnpa⟩ := List.mem_filter.mp ha1
  simp at hnpa
  simp [hnpa]

/-- C3: submitting a claim for a unit outside both configured inclusive
ranges returns the validation error and performs no store mutation. -/
theorem submit_claim_out_of_range (db : DB) (r u : Int)
    (h : ¬ ((HOUSE1_START ≤ u ∧ u ≤ HOUSE1_END) ∨
            (HOUSE2_START ≤ u ∧ u ≤ HOUSE2_END))) :
    request_apartment_access db r u = (db, SubmitResult.invalid_apartment) := by
  have hv : is_valid_apartment u = false := by
    rw [not_or] at h
    unfold is_valid_apartment
    simp [h.1, h.2]
  simp [request_apartment_access, hv]

theorem submit_claim_out_of_range_w :
    request_apartment_access dbW0 5 500 = (dbW0, SubmitResult.invalid_apartment) :=
  submit_claim_out_of_range dbW0 5 500 (by decide)

/-- C2: for an in-range unit, a submitted claim on a vacant unit inserts
exactly one occupancy link for the requester and creates no approval
request; on an occupied unit it creates exactly one new pending request
and inserts no link. -/
theorem submit_claim_vacant_vs_occupied (db : DB) (r u : Int)
    (h : is_valid_apartment u = true) :
    (db.apartments.filter (fun l => decide (l.apartment_number = u)) = [] →
        (request_apartment_access db r u).1.apartments
            = db.apartments ++ [{ apartment_number := u, user_id := r }] ∧
        (request_apartment_access db r u).1.approval_requests = db.approval_requests ∧
        (request_apartment_access db r u).2 = SubmitResult.linked) ∧
    (∀ first rest,
        db.apartments.filter (fun l => decide (l.apartment_number = u)) = first :: rest →
        (request_apartment_access db r u).1.apartments = db.apartments ∧
        (request_apartment_access db r u).1.approval_requests
            = db.approval_requests ++
              [{ id := db.next_request_id, apartment_number := u,
                 requesting_user_id := r, approver_user_id := first.user_id,
                 status := Status.pending }]) := by
  constructor
  · intro hE
    simp [request_apartment_access, h, hE]
  · intro first rest hE
    simp [request_apartment_access, h, hE]

theorem submit_claim_vacant_vs_occupied_w :
    ((request_apartment_access dbW0 5 10).1.apartments
        = dbW0.apartments ++ [{ apartment_number := 10, user_id := 5 }] ∧
     (request_apartment_access dbW0 5 10).1.approval_requests = dbW0.approval_requests ∧
     (request_apartment_access dbW0 5 10).2 = SubmitResult.linked) :=
  (submit_claim_vacant_vs_occupied dbW0 5 10 (by decide)).1 (by decide)

/-- C5: a submitted claim on an occupied unit nominates exactly one
approver, the first resident row fetched for that unit. -/
theorem submit_claim_single_approver (db : DB) (r u : Int)
    (h : is_valid_apartment u = true) (first : Link) (rest : List Link)
    (hocc : db.apartments.filter (fun l => decide (l.apartment_number = u))
        = first :: rest) :
    (request_apartment_access db r u).2 = SubmitResult.request_created first.user_id ∧
    (request_apartment_access db r u).1.approval_requests
        = db.approval_requests ++
          [{ id := db.next_request_id, apartment_number := u,
             requesting_user_id := r, approver_user_id := first.user_id,
             status := Status.pending }] := by
  simp [request_apartment_access, h, hocc]

theorem submit_claim_single_approver_w :
    (request_apartment_access dbW1 6 10).2 = SubmitResult.request_created 5 ∧
    (request_apartment_access dbW1 6 10).1.approval_requests
        = dbW1.approval_requests ++
          [{ id := 1, apartment_number := 10, requesting_user_id := 6,
             approver_user_id := 5, status := Status.pending }] :=
  submit_claim_single_approver dbW1 6 10 (by decide)
    { apartment_number := 10, user_id := 5 } [] (by decide)

/-- C7: clearing the pending queue removes exactly the rows whose status
is pending and returns their count, keeps every non-pending row, leaves
the other tables alone, and returns 0 when run again at once. -/
theorem clear_pending_exact (db : DB) :
    (clear_pending_requests_from_db db).2
        = db.approval_requests.countP (fun r => decide (r.status = Status.pending)) ∧
    (clear_pending_requests_from_db db).1.approval_requests.length
        + (clear_pending_requests_from_db db).2 = db.approval_requests.length ∧
    (∀ q ∈ db.approval_requests, q.status ≠ Status.pending →
        q ∈ (clear_pending_requests_from_db db).1.approval_requests) ∧
    (∀ q ∈ (clear_pending_requests_from_db db).1.approval_requests,
        q.status ≠ Status.pending) ∧
    (clear_pending_requests_from_db db).1.apartments = db.apartments ∧
    (clear_pending_requests_from_db db).1.admins = db.admins ∧
    (clear_pending_requests_from_db (clear_pending_requests_from_db db).1).2 = 0 := by
  refine ⟨rfl, ?_, ?_, ?_, rfl, rfl, ?_⟩
  · show (db.approval_requests.filter _).length + db.approval_requests.countP _ = _
    rw [← List.countP_eq_length_filter, Nat.add_comm]
    exact countP_split _ _
  · intro q hq hstat
    exact List.mem_filter.mpr ⟨hq, by simp [hstat]⟩
  · intro q hq
    have := (List.mem_filter.mp hq).2
    simpa using this
  · show List.countP _ (db.approval_requests.filter _) = 0
    rw [List.countP_eq_zero]
    intro q hq
    have := (List.mem_filter.mp hq).2
    simpa using this

theorem clear_pending_exact_w :
    (clear_pending_requests_from_db (clear_pending_requests_from_db dbW1).1).2 = 0 :=
  (clear_pending_exact dbW1).2.2.2.2.2.2

/-- C10: releasing the own link deletes every occupancy link of the
caller across all units while reporting the unit of the first link
fetched, and is a reported no-op for a caller without a link. -/
theorem release_own_link_spec (db : DB) (user : Int) :
    (db.apartments.find? (fun l => decide (l.user_id = user)) = none →
        delete_apartment db user = (db, ReleaseResult.no_apartment)) ∧
    (∀ link, db.apartments.find? (fun l => decide (l.user_id = user)) = some link →
        (delete_apartment db user).2 = ReleaseResult.removed link.apartment_number ∧
        (delete_apartment db user).1.apartments
            = db.apartments.filter (fun l => !decide (l.user_id = user)) ∧
        (∀ l ∈ (delete_apartment db user).1.apartments, l.user_id ≠ user) ∧
        (delete_apartment db user).1.approval_requests = db.approval_requests ∧
        (delete_apartment db user).1.admins = db.admins) := by
  constructor
  · intro hnone
    simp [delete_apartment, hnone]
  · intro link hsome
    refine ⟨?_, ?_, ?_, ?_, ?_⟩
    · simp [delete_apartment, hsome]
    · simp [delete_apartment, hsome]
    · intro l hl
      simp only [delete_apartment, hsome] at hl
      have := (List.mem_filter.mp hl).2
      simpa using this
    · simp [delete_apartment, hsome]
    · simp [delete_apartment, hsome]

theorem release_own_link_spec_w :
    (delete_apartment dbW1 5).2 = ReleaseResult.removed 10 :=
  ((release_own_link_spec dbW1 5).2 { apartment_number := 10, user_id := 5 }
    (by decide)).1

/-- C4: approve fails Not-Found without a pending request for the pair
and mutates nothing; with one, it fails with a conflict and mutates
nothing when the requester already holds any link, and otherwise inserts
the link for the unit of the request and marks the request approved. -/
theorem approve_request_spec (db : DB) (a r : Int) :
    (pending_request_for db r a = none →
        approve_request db a r = (db, ApproveResult.not_found)) ∧
    (∀ request, pending_request_for db r a = some request →
        ((∃ l ∈ db.apartments, l.user_id = r) →
            (approve_request db a r).1 = db ∧
            ∃ n, (approve_request db a r).2 = ApproveResult.already_registered n) ∧
        ((∀ l ∈ db.apartments, l.user_id ≠ r) →
            (approve_request db a r).1.apartments
                = db.apartments ++
                  [{ apartment_number := request.apartment_number, user_id := r }] ∧
            { request with status := Status.approved }
                ∈ (approve_request db a r).1.approval_requests ∧
            (approve_request db a r).2
                = ApproveResult.approved request.apartment_number)) := by
  constructor
  · intro hnone
    simp [approve_request, hnone]
  · intro request hsome
    constructor
    · rintro ⟨l, hl, hlr⟩
      have hisSome : (db.apartments.find? (fun l => decide (l.user_id = r))).isSome := by
        rw [List.find?_isSome]
        exact ⟨l, hl, by simp [hlr]⟩
      obtain ⟨x, hx⟩ := Option.isSome_iff_exists.mp hisSome
      constructor
      · simp [approve_request, hsome, hx]
      · exact ⟨x.apartment_number, by simp [approve_request, hsome, hx]⟩
    · intro hnolink
      have hfind : db.apartments.find? (fun l => decide (l.user_id = r)) = none := by
        rw [List.find?_eq_none]
        intro l hl
        simp [hnolink l hl]
      have hany : db.apartments.any (fun l =>
          decide (l.apartment_number = request.apartment_number ∧ l.user_id = r))
          = false := by
        rw [List.any_eq_false]
        intro l hl
        simp only [decide_eq_true_eq, not_and]
        intro _
        exact hnolink l hl
      have hnotex : ¬ ∃ x ∈ db.apartments,
          x.apartment_number = request.apartment_number ∧ x.user_id = r := by
        rintro ⟨x, hx, _, hxr⟩
        exact hnolink x hx hxr
      have hmem : request ∈ db.approval_requests := List.mem_of_find?_eq_some hsome
      have hp := List.find?_some hsome
      have hcond : request.requesting_user_id = r ∧ request.approver_user_id = a ∧
          request.status = Status.pending := by simpa using hp
      refine ⟨?_, ?_, ?_⟩
      · simp [approve_request, hsome, hfind, hany, hnotex]
      · simp only [approve_request, hsome, hfind, hany, Bool.false_eq_true, if_false]
        have hmap := List.mem_map_of_mem (fun q : Request =>
          if q.requesting_user_id = r ∧ q.approver_user_id = a ∧
             q.status = Status.pending
          then { q with status := Status.approved } else q) hmem
        simpa [hcond.1, hcond.2.1, hcond.2.2] using hmap
      · simp [approve_request, hsome, hfind, hany, hnotex]

theorem approve_request_spec_w :
    (approve_request dbW1 5 6).1.apartments
        = dbW1.apartments ++ [{ apartment_number := reqW1.apartment_number, user_id := 6 }] ∧
    { reqW1 with status := Status.approved } ∈ (approve_request dbW1 5 6).1.approval_requests ∧
    (approve_request dbW1 5 6).2 = ApproveResult.approved reqW1.apartment_number :=
  ((approve_request_spec dbW1 5 6).2 reqW1 (by decide)).2 (by decide)

/-- C6: after a force-assign by an operator to an in-range unit, the
unit holds exactly the one link to the target, the target holds no link
under any other unit, and every previously pending request for the
(unit, target) pair is approved with the acting operator as approver. -/
theorem force_assign_spec (db : DB) (actor u x : Int)
    (hadm : is_admin_user db actor = true) (hu : is_valid_apartment u = true) :
    (admin_assign db actor u x).1.apartments.filter
        (fun l => decide (l.apartment_number = u))
        = [{ apartment_number := u, user_id := x }] ∧
    (∀ l ∈ (admin_assign db actor u x).1.apartments,
        l.user_id = x → l.apartment_number = u) ∧
    (∀ q ∈ db.approval_requests,
        q.apartment_number = u → q.requesting_user_id = x →
        q.status = Status.pending →
        { q with status := Status.approved, approver_user_id := actor }
            ∈ (admin_assign db actor u x).1.approval_requests) := by
  refine ⟨?_, ?_, ?_⟩
  · simp only [admin_assign, hadm, hu, Bool.not_true, Bool.false_eq_true, if_false]
    rw [List.filter_append, filter_pos_of_double_neg_filter]
    simp
  · intro l hl hx
    simp only [admin_assign, hadm, hu, Bool.not_true, Bool.false_eq_true, if_false] at hl
    rcases List.mem_append.mp hl with hleft | hright
    · have := (List.mem_filter.mp hleft).2
      simp at this
      exact absurd hx this
    · have : l = { apartment_number := u, user_id := x } := by simpa using hright
      rw [this]
  · intro q hq h1 h2 h3
    simp only [admin_assign, hadm, hu, Bool.not_true, Bool.false_eq_true, if_false]
    have hmap := List.mem_map_of_mem (fun q : Request =>
      if q.apartment_number = u ∧ q.requesting_user_id = x ∧
         q.status = Status.pending
      then { q with status := Status.approved, approver_user_id := actor }
      else q) hq
    simpa [h1, h2, h3] using hmap

theorem force_assign_spec_w :
    (admin_assign dbW1 1 20 7).1.apartments.filter
        (fun l => decide (l.apartment_number = (20 : Int)))
        = [{ apartment_number := 20, user_id := 7 }] :=
  (force_assign_spec dbW1 1 20 7 (by decide) (by decide)).1

/-- C9: a full reset fires exactly when the caller is the root operator
and the first argument is the secret token; it then empties the links
and the requests, never touches the operator table, and in every other
case leaves the store unchanged. -/
theorem full_reset_spec (mid : Int) (db : DB) (caller : Int) (args : List String) :
    ((force_registration mid db caller args).2 = ResetResult.cleared ↔
        caller = mid ∧ args.head? = some FORCE_REGISTRATION_CODE) ∧
    (force_registration mid db caller args).1.admins = db.admins ∧
    ((force_registration mid db caller args).2 = ResetResult.cleared →
        (force_registration mid db caller args).1.apartments = [] ∧
        (force_registration mid db caller args).1.approval_requests = []) ∧
    ((force_registration mid db caller args).2 ≠ ResetResult.cleared →
        (force_registration mid db caller args).1 = db) := by
  unfold force_registration
  by_cases hc : caller = mid
  · subst hc
    cases args with
    | nil => simp
    | cons code rest =>
        by_cases hcode : code = FORCE_REGISTRATION_CODE
        · simp [hcode]
        · simp [hcode]
  · simp [hc]

theorem full_reset_spec_w :
    (force_registration 1 dbW1 1 ["2512"]).1.apartments = [] ∧
    (force_registration 1 dbW1 1 ["2512"]).1.approval_requests = [] :=
  (full_reset_spec 1 dbW1 1 ["2512"]).2.2.1 (by decide)

theorem admins_submit (db : DB) (r u : Int) :
    (request_apartment_access db r u).1.admins = db.admins := by
  unfold request_apartment_access
  split
  · rfl
  · dsimp only
    split <;> rfl

theorem admins_approve (db : DB) (a r : Int) :
    (approve_request db a r).1.admins = db.admins := by
  unfold approve_request
  split
  · rfl
  · split
    · rfl
    · split <;> rfl

theorem admins_reject (db : DB) (a r : Int) :
    (reject_request db a r).1.admins = db.admins := by
  unfold reject_request
  split <;> rfl

theorem admins_reset (mid : Int) (db : DB) (caller : Int) (args : List String) :
    (force_registration mid db caller args).1.admins = db.admins := by
  unfold force_registration
  split
  · rfl
  · split
    · rfl
    · split <;> rfl

theorem admins_release (db : DB) (uid : Int) :
    (delete_apartment db uid).1.admins = db.admins := by
  unfold delete_apartment
  split <;> rfl

theorem admins_assign (db : DB) (actor u x : Int) :
    (admin_assign db actor u x).1.admins = db.admins := by
  unfold admin_assign
  split
  · rfl
  · split <;> rfl

theorem admins_unlink (db : DB) (actor x : Int) (u : Option Int) :
    (admin_unlink db actor x u).1.admins = db.admins := by
  unfold admin_unlink
  split
  · rfl
  · dsimp only
    split <;> rfl

theorem admins_free_apartment (db : DB) (actor u : Int) :
    (admin_delete_apartment db actor u).1.admins = db.admins := by
  unfold admin_delete_apartment
  split
  · rfl
  · split
    · rfl
    · dsimp only
      split <;> rfl

theorem admins_mem_applyOp (mid : Int) (db : DB) (op : Op) (h : mid ∈ db.admins) :
    mid ∈ (applyOp mid db op).admins := by
  cases op with
  | submit r u => rw [applyOp, admins_submit]; exact h
  | approve a r => rw [applyOp, admins_approve]; exact h
  | reject a r => rw [applyOp, admins_reject]; exact h
  | clearPending => exact h
  | reset caller args => rw [applyOp, admins_reset]; exact h
  | release uid => rw [applyOp, admins_release]; exact h
  | assign actor u x => rw [applyOp, admins_assign]; exact h
  | unlink actor x u => rw [applyOp, admins_unlink]; exact h
  | freeApartment actor u => rw [applyOp, admins_free_apartment]; exact h
  | addAdm caller nid =>
      rw [applyOp]
      unfold add_admin
      split
      · exact h
      · split
        · exact h
        · exact List.mem_append_left _ h
  | removeAdm caller aid =>
      rw [applyOp]
      unfold remove_admin
      split
      · exact h
      · split
        · exact h
        · exact List.mem_filter.mpr ⟨h, by simp⟩

theorem admins_mem_foldl (mid : Int) (ops : List Op) (db : DB) (h : mid ∈ db.admins) :
    mid ∈ (ops.foldl (applyOp mid) db).admins := by
  induction ops generalizing db with
  | nil => exact h
  | cons op rest ih => exact ih _ (admins_mem_applyOp mid db op h)

/-- C8: removing the root operator id is rejected for every caller and
leaves the store unchanged, and the root id stays in the operator table
across every sequence of store operations. -/
theorem root_admin_never_removed (mid : Int) (db : DB) (caller : Int)
    (hmem : mid ∈ db.admins) :
    (remove_admin mid db caller mid).1 = db ∧
    (remove_admin mid db caller mid).2 ≠ AdminEditResult.done ∧
    ∀ ops : List Op, mid ∈ (ops.foldl (applyOp mid) db).admins := by
  refine ⟨?_, ?_, ?_⟩
  · by_cases hc : caller = mid <;> simp [remove_admin, hc]
  · by_cases hc : caller = mid <;> simp [remove_admin, hc]
  · intro ops
    exact admins_mem_foldl mid ops db hmem

theorem root_admin_never_removed_w :
    (remove_admin 1 dbW1 2 1).1 = dbW1 ∧
    (remove_admin 1 dbW1 2 1).2 ≠ AdminEditResult.done ∧
    (1 : Int) ∈ ([Op.removeAdm 1 1, Op.clearPending].foldl (applyOp 1) dbW1).admins :=
  ⟨(root_admin_never_removed 1 dbW1 2 (by decide)).1,
   (root_admin_never_removed 1 dbW1 2 (by decide)).2.1,
   (root_admin_never_removed 1 dbW1 2 (by decide)).2.2 [Op.removeAdm 1 1, Op.clearPending]⟩

/-- C1: the claim fails on the code: the UPDATE of `reject_request`
carries no status filter, so with an approved row and a pending row for
the same (requester, approver) pair, a reject rewrites the approved row
to rejected as well. -/
theorem reject_request_flips_approved_row :
    dbC1.approval_requests.map (fun r => r.status)
        = [Status.approved, Status.pending] ∧
    (reject_request dbC1 1 2).1.approval_requests.map (fun r => r.status)
        = [Status.rejected, Status.rejected] := by
  decide

end BotPushkin
